import Mathlib

/-!
Verification development for the Tribute payment-webhook service
(`bot/services/tribute_service.py`).

The webhook handlers are embedded shallowly: bytes are `List Nat`
(each entry a byte value), monetary amounts are rationals, the
database visible to one request is an explicit `DbState`, and the
external collaborators (user creation, payment DAL, subscription
activation, referral bonuses, notification plumbing) are oracles
passed in as data, with `Except Unit` modelling a Python exception.
A session is modelled by explicit (committed, pending) state passing:
`commit` publishes the pending state, `rollback` discards it, and an
exception escaping the handler leaves the last committed state.
-/

set_option maxRecDepth 10000

namespace TributeModel

/-! ### Small string utilities (ASCII semantics of Python str.upper/lower) -/

/-- ASCII lower-casing of a string, character by character, matching
Python `str.lower` on the ASCII range. -/
def pyLower (s : String) : String := ⟨s.data.map Char.toLower⟩

/-- ASCII upper-casing of a string, character by character, matching
Python `str.upper` on the ASCII range. -/
def pyUpper (s : String) : String := ⟨s.data.map Char.toUpper⟩

/-- Python rendering of an optional integer inside an f-string:
`None` when the value is missing, its decimal form otherwise. -/
def pyStrInt : Option Int → String
  | none => "None"
  | some n => toString n

/-- Tests whether the first list is an initial segment of the second. -/
def leadsWith : List Char → List Char → Bool
  | [], _ => true
  | _ :: _, [] => false
  | a :: as, b :: bs => a == b && leadsWith as bs

/-- Tests whether the first list occurs contiguously inside the second,
matching Python's `needle in hay` on strings. -/
def containsSub (needle : List Char) : List Char → Bool
  | [] => leadsWith needle []
  | c :: t => leadsWith needle (c :: t) || containsSub needle t

/-- Python substring membership `needle in hay` for strings. -/
def strContains (needle hay : String) : Bool := containsSub needle.data hay.data

/-! ### SHA-256 over byte lists

A direct executable transcription of FIPS 180-4, used by the
signature verifier through `hashlib.sha256` / `hmac.new`. 32-bit
words are `Nat` values kept below `2 ^ 32` by explicit reduction. -/

/-- Reduction of a natural number to a 32-bit word. -/
def w32 (x : Nat) : Nat := x % 4294967296

/-- Right rotation of a 32-bit word by `n` bits. -/
def rotr (n x : Nat) : Nat := w32 ((x >>> n) ||| (x <<< (32 - n)))

/-- SHA-256 small sigma-0 message-schedule function. -/
def ssig0 (x : Nat) : Nat := (rotr 7 x) ^^^ (rotr 18 x) ^^^ (x >>> 3)

/-- SHA-256 small sigma-1 message-schedule function. -/
def ssig1 (x : Nat) : Nat := (rotr 17 x) ^^^ (rotr 19 x) ^^^ (x >>> 10)

/-- SHA-256 big sigma-0 round function. -/
def bsig0 (x : Nat) : Nat := (rotr 2 x) ^^^ (rotr 13 x) ^^^ (rotr 22 x)

/-- SHA-256 big sigma-1 round function. -/
def bsig1 (x : Nat) : Nat := (rotr 6 x) ^^^ (rotr 11 x) ^^^ (rotr 25 x)

/-- SHA-256 choice function on 32-bit words. -/
def chF (x y z : Nat) : Nat := (x &&& y) ^^^ ((x ^^^ 4294967295) &&& z)

/-- SHA-256 majority function on 32-bit words. -/
def majF (x y z : Nat) : Nat := (x &&& y) ^^^ (x &&& z) ^^^ (y &&& z)

/-- SHA-256 round constants. -/
def sha256K : List Nat :=
  [1116352408, 1899447441, 3049323471, 3921009573, 961987163, 1508970993,
   2453635748, 2870763221, 3624381080, 310598401, 607225278, 1426881987,
   1925078388, 2162078206, 2614888103, 3248222580, 3835390401, 4022224774,
   264347078, 604807628, 770255983, 1249150122, 1555081692, 1996064986,
   2554220882, 2821834349, 2952996808, 3210313671, 3336571891, 3584528711,
   113926993, 338241895, 666307205, 773529912, 1294757372, 1396182291,
   1695183700, 1986661051, 2177026350, 2456956037, 2730485921, 2820302411,
   3259730800, 3345764771, 3516065817, 3600352804, 4094571909, 275423344,
   430227734, 506948616, 659060556, 883997877, 958139571, 1322822218,
   1537002063, 1747873779, 1955562222, 2024104815, 2227730452, 2361852424,
   2428436474, 2756734187, 3204031479, 3329325298]

/-- Working state of the SHA-256 compression function: eight 32-bit words. -/
structure Hash8 where
  a : Nat
  b : Nat
  c : Nat
  d : Nat
  e : Nat
  f : Nat
  g : Nat
  h : Nat
  deriving DecidableEq, Repr

/-- Initial SHA-256 hash value. -/
def sha256H0 : Hash8 :=
  ⟨1779033703, 3144134277, 1013904242, 2773480762, 1359893119, 2600822924, 528734635, 1541459225⟩

/-- Grouping of a byte list into big-endian 32-bit words. -/
def bytesToWords : List Nat → List Nat
  | b0 :: b1 :: b2 :: b3 :: rest =>
      (b0 * 16777216 + b1 * 65536 + b2 * 256 + b3) :: bytesToWords rest
  | _ => []

/-- Big-endian 8-byte encoding of a length value. -/
def lenBytes8 (n : Nat) : List Nat :=
  [(n >>> 56) % 256, (n >>> 48) % 256, (n >>> 40) % 256, (n >>> 32) % 256,
   (n >>> 24) % 256, (n >>> 16) % 256, (n >>> 8) % 256, n % 256]

/-- SHA-256 padding: a `0x80` byte, zeros, then the 64-bit bit length,
bringing the total length to a multiple of 64 bytes. -/
def padMessage (msg : List Nat) : List Nat :=
  msg ++ [128] ++ List.replicate ((119 - msg.length % 64) % 64) 0 ++ lenBytes8 (msg.length * 8)

/-- One extension step of the SHA-256 message schedule. -/
def stepW (w : Array Nat) : Array Nat :=
  let n := w.size
  w.push (w32 (ssig1 (w.getD (n - 2) 0) + w.getD (n - 7) 0 + ssig0 (w.getD (n - 15) 0) + w.getD (n - 16) 0))

/-- Iterated extension of the SHA-256 message schedule. -/
def extendSchedule : Nat → Array Nat → Array Nat
  | 0, w => w
  | n + 1, w => extendSchedule n (stepW w)

/-- One SHA-256 compression round. -/
def round256 (st : Hash8) (k : Nat) (w : Nat) : Hash8 :=
  let t1 := w32 (st.h + bsig1 st.e + chF st.e st.f st.g + k + w)
  let t2 := w32 (bsig0 st.a + majF st.a st.b st.c)
  ⟨w32 (t1 + t2), st.a, st.b, st.c, w32 (st.d + t1), st.e, st.f, st.g⟩

/-- Fold of the compression rounds over paired constants and schedule words. -/
def rounds256 (st : Hash8) : List (Nat × Nat) → Hash8
  | [] => st
  | kw :: rest => rounds256 (round256 st kw.1 kw.2) rest

/-- Compression of one 64-byte block into the running hash value. -/
def compressBlock (h0 : Hash8) (block : List Nat) : Hash8 :=
  let w := (extendSchedule 48 (Array.mk (bytesToWords block))).toList
  let st := rounds256 h0 (sha256K.zip w)
  ⟨w32 (h0.a + st.a), w32 (h0.b + st.b), w32 (h0.c + st.c), w32 (h0.d + st.d),
   w32 (h0.e + st.e), w32 (h0.f + st.f), w32 (h0.g + st.g), w32 (h0.h + st.h)⟩

/-- Processing of `n` consecutive 64-byte blocks. -/
def sha256Blocks : Nat → Hash8 → List Nat → Hash8
  | 0, h0, _ => h0
  | n + 1, h0, msg => sha256Blocks n (compressBlock h0 (msg.take 64)) (msg.drop 64)

/-- Big-endian 4-byte decomposition of a 32-bit word. -/
def byte4 (w : Nat) : List Nat :=
  [(w >>> 24) % 256, (w >>> 16) % 256, (w >>> 8) % 256, w % 256]

/-- Serialization of the final hash value into 32 bytes. -/
def digestBytes (H : Hash8) : List Nat :=
  byte4 H.a ++ byte4 H.b ++ byte4 H.c ++ byte4 H.d ++
  byte4 H.e ++ byte4 H.f ++ byte4 H.g ++ byte4 H.h

/-- SHA-256 of a byte list, as a 32-byte list. -/
def sha256 (msg : List Nat) : List Nat :=
  let padded := padMessage msg
  digestBytes (sha256Blocks (padded.length / 64) sha256H0 padded)

/-- Lower-case hex character for a value below 16. -/
def hexChar (n : Nat) : Char := if n < 10 then Char.ofNat (48 + n) else Char.ofNat (87 + n)

/-- Lower-case hex rendering of a byte list, two characters per byte. -/
def hexChars : List Nat → List Char
  | [] => []
  | b :: rest => hexChar (b / 16) :: hexChar (b % 16) :: hexChars rest

/-- Lower-case hex string of a byte list, as produced by Python `hexdigest`. -/
def hexDigest (l : List Nat) : String := ⟨hexChars l⟩

/-- HMAC-SHA256 (RFC 2104) over byte lists, block size 64, as computed by
Python `hmac.new(key, msg, hashlib.sha256)`. -/
def hmacSha256 (key msg : List Nat) : List Nat :=
  let k1 := if 64 < key.length then sha256 key else key
  let k2 := k1 ++ List.replicate (64 - k1.length) 0
  sha256 ((k2.map (fun b => b ^^^ 92)) ++ sha256 ((k2.map (fun b => b ^^^ 54)) ++ msg))

/-! ### Signature verifier

Embedding of `TributeService._verify_signature`. The configured API
key is modelled directly as its UTF-8 byte list (`api_key.encode`),
and the request body as the raw byte list aiohttp hands the handler. -/

/-- Embedding of `TributeService._verify_signature`: with no API key
configured the check fails; an empty signature header fails; otherwise
the lower-cased hex HMAC-SHA256 of the body under the key is compared
with the lower-cased header value. -/
def verifySignature (apiKey : Option (List Nat)) (body : List Nat) (signature : String) : Bool :=
  match apiKey with
  | none => false
  | some key =>
    if signature = "" then false
    else pyLower (hexDigest (hmacSha256 key body)) == pyLower signature

/-! ### Duration and amount normalization -/

/-- Match test of `_parse_months_from_product`: the configured link text
contains `p{product_id}` or `p/{product_id}`. -/
def linkMatches (productId : Option Int) (link : String) : Bool :=
  strContains ("p" ++ pyStrInt productId) link || strContains ("p/" ++ pyStrInt productId) link

/-- Embedding of `TributeService._parse_months_from_product`: scan the
configured duration-to-link associations in order, return the months
key of the first link whose text matches, and fall back to 1. -/
def parseMonthsFromProduct (links : List (Nat × String)) (productId : Option Int) : Nat :=
  match links with
  | [] => 1
  | (m, link) :: rest =>
      if linkMatches productId link then m else parseMonthsFromProduct rest productId

/-- Amount normalization shared by both handlers: divide by 100 exactly
when the upper-cased currency is USD or EUR, keep the raw value otherwise. -/
def normalizeAmount (amount : ℚ) (currencyUpper : String) : ℚ :=
  if currencyUpper = "USD" ∨ currencyUpper = "EUR" then amount / 100 else amount

/-- Embedding of the `period_to_months` table of
`_handle_subscription_event`, including its `.get(period, 1)` default. -/
def periodToMonths (period : String) : ℚ :=
  if period = "monthly" then 1
  else if period = "quarterly" then 3
  else if period = "yearly" then 12
  else if period = "half_yearly" then 6
  else if period = "weekly" then 1/4
  else 1

/-- Clamp applied three times in `_handle_subscription_event`:
`months if months >= 1 else 1`, written with the executable rational
comparison `Rat.blt` (`m.blt 1` decides `m < 1`, the negation of
`months >= 1`). -/
def clampMonths (m : ℚ) : ℚ := if Rat.blt m 1 then 1 else m

/-! ### Data model -/

/-- Fields of the webhook `payload` mapping that the handlers read.
A `none` entry models an absent key. -/
structure Payload where
  telegram_user_id : Option Int
  product_id : Option Int
  amount : Option ℚ
  currency : Option String
  user_id : Option Int
  subscription_id : Option Int
  period : Option String
  period_id : Option Int
  deriving DecidableEq, Repr

/-- Payload carrying no keys, the empty-mapping default of
`data.get` for the `payload` entry. -/
def emptyPayload : Payload := ⟨none, none, none, none, none, none, none, none⟩

/-- Decoded webhook document: the `name` tag, the `created_at` stamp and
the nested payload mapping, each possibly absent. -/
structure WebhookData where
  name : Option String
  created_at : Option String
  payload : Option Payload
  deriving DecidableEq, Repr

/-- Stored payment row. `months` holds the duration column written by the
respective DAL call (`subscription_duration_months` on the one-time path,
`months` on the subscription path). -/
structure PaymentRecord where
  payment_id : Nat
  user_id : Int
  amount : ℚ
  currency : String
  status : String
  months : ℚ
  provider : String
  provider_payment_id : String
  description : Option String
  deriving DecidableEq, Repr

/-- Durable state visible to one webhook request: the known user ids, the
payment rows, markers for landed activation and referral-bonus effects
(keyed by payment id), and the id the next insert receives. -/
structure DbState where
  users : List Int
  payments : List PaymentRecord
  activations : List Nat
  bonuses : List Nat
  nextPaymentId : Nat
  deriving DecidableEq, Repr

/-- Presence test for a payment row with the given provider payment id,
the query of `payment_dal.get_payment_by_provider_payment_id`. -/
def hasPayment (s : DbState) (pid : String) : Bool :=
  s.payments.any (fun p => p.provider_payment_id == pid)

/-- Effect of `user_dal.create_user` for the given id. -/
def addUser (s : DbState) (uid : Int) : DbState :=
  { s with users := s.users ++ [uid] }

/-- Effect of `payment_dal.update_payment_status_by_db_id`. -/
def setPaymentStatus (s : DbState) (pid : Nat) (st : String) : DbState :=
  { s with payments := s.payments.map (fun p => if p.payment_id = pid then { p with status := st } else p) }

/-- HTTP response of a handler: status code and body text. -/
structure Response where
  status : Nat
  text : String
  deriving DecidableEq, Repr

/-- Settings fields the handlers consult. -/
structure Config where
  tribute_links : List (Nat × String)
  traffic_sale_mode : Bool
  deriving DecidableEq, Repr

deriving instance DecidableEq for Except

/-- Oracles for the notification dispatcher `_send_success_notification`:
composing the message (config-link preparation, i18n, keyboard), sending
it to the user, and notifying the admins. `Except.error` models a raised
exception. -/
structure NotifOracles where
  compose : Except Unit Unit
  send : Except Unit Unit
  admin : Except Unit Unit
  deriving DecidableEq, Repr

/-- Oracles for the external collaborators of one handler run.
`activation` returns the truthiness of the activation collaborator's
result (`none` models a `None` return), `referral` likewise for the
referral-bonus collaborator; `Except.error` models a raised exception. -/
structure Oracles where
  createUserOk : Bool
  createPaymentOk : Bool
  activation : Except Unit (Option Unit)
  referral : Except Unit (Option Unit)
  notif : NotifOracles
  deriving DecidableEq, Repr

/-- Trace of collaborator invocations of one run: the months argument of
each activation call, the number of referral-bonus calls, and the months
argument of each notification call. -/
structure Trace where
  actCalls : List ℚ
  refCalls : Nat
  notifCalls : List ℚ
  deriving DecidableEq, Repr

/-- Trace of a run that invoked no collaborator. -/
def emptyTrace : Trace := ⟨[], 0, []⟩

/-- Result of one handler run: the handler's outcome (`Except.error`
models an exception escaping the handler, which the HTTP server turns
into a 500 response), the committed durable state, and the call trace. -/
structure HandlerResult where
  outcome : Except Unit Response
  state : DbState
  trace : Trace
  deriving DecidableEq, Repr

/-- Embedding of `TributeService._send_success_notification`: the message
composition steps run unguarded, so an exception there propagates to the
caller; the user send and the admin notification are each wrapped in
their own try/except and only logged. -/
def sendSuccessNotification (o : NotifOracles) : Except Unit Unit :=
  match o.compose with
  | Except.error e => Except.error e
  | Except.ok _ => Except.ok ()

/-- Derived provider payment id of the one-time purchase path:
`tribute:{product_id}:{user_id}:{created_at}`. -/
def oneTimePid (data : WebhookData) (p : Payload) : String :=
  "tribute:" ++ pyStrInt p.product_id ++ ":" ++ pyStrInt p.user_id ++ ":" ++ data.created_at.getD ""

/-- Derived provider payment id of the subscription path:
`tribute_sub:{subscription_id}:{period_id}:{user_id}`. -/
def subPid (p : Payload) : String :=
  "tribute_sub:" ++ pyStrInt p.subscription_id ++ ":" ++ pyStrInt p.period_id ++ ":" ++ pyStrInt p.user_id

/-- Portion of `TributeService._handle_new_digital_product` after the
user row is ensured, starting from committed state `s1`: a stored row
under the derived provider payment id short-circuits with 200; the
payment row is inserted with status `succeeded` and committed (rollback
and 500 `db_error` on failure); activation and, in non-traffic sale
mode, the referral bonus run inside one try whose commit is skipped and
whose work is rolled back on any exception, answered with 500
`activation_error`; finally the success notification runs unguarded. -/
def oneTimeAfterUser (cfg : Config) (orc : Oracles)
    (data : WebhookData) (p : Payload) (tg : Int) (s1 : DbState) : HandlerResult :=
  let months : Nat := parseMonthsFromProduct cfg.tribute_links p.product_id
  let currency : String := pyUpper (p.currency.getD "usd")
  let amountFloat : ℚ := normalizeAmount (p.amount.getD 0) currency
  let pid := oneTimePid data p
  if hasPayment s1 pid then ⟨Except.ok ⟨200, "OK"⟩, s1, emptyTrace⟩
  else if orc.createPaymentOk = false then ⟨Except.ok ⟨500, "db_error"⟩, s1, emptyTrace⟩
  else
    let payRec : PaymentRecord :=
      ⟨s1.nextPaymentId, tg, amountFloat, currency, "succeeded", (months : ℚ),
       "tribute", pid, some ("Tribute subscription " ++ toString months ++ " month(s)")⟩
    let s2 : DbState :=
      { s1 with payments := s1.payments ++ [payRec], nextPaymentId := s1.nextPaymentId + 1 }
    let actArg : ℚ := if cfg.traffic_sale_mode then 0 else (months : ℚ)
    match orc.activation with
    | Except.error _ => ⟨Except.ok ⟨500, "activation_error"⟩, s2, ⟨[actArg], 0, []⟩⟩
    | Except.ok act =>
      let s3 : DbState :=
        if act.isSome then { s2 with activations := s2.activations ++ [payRec.payment_id] } else s2
      if cfg.traffic_sale_mode then
        match sendSuccessNotification orc.notif with
        | Except.error _ => ⟨Except.error (), s3, ⟨[actArg], 0, [(months : ℚ)]⟩⟩
        | Except.ok _ => ⟨Except.ok ⟨200, "OK"⟩, s3, ⟨[actArg], 0, [(months : ℚ)]⟩⟩
      else
        match orc.referral with
        | Except.error _ => ⟨Except.ok ⟨500, "activation_error"⟩, s2, ⟨[actArg], 1, []⟩⟩
        | Except.ok refb =>
          let s4 : DbState :=
            if refb.isSome then { s3 with bonuses := s3.bonuses ++ [payRec.payment_id] } else s3
          match sendSuccessNotification orc.notif with
          | Except.error _ => ⟨Except.error (), s4, ⟨[actArg], 1, [(months : ℚ)]⟩⟩
          | Except.ok _ => ⟨Except.ok ⟨200, "OK"⟩, s4, ⟨[actArg], 1, [(months : ℚ)]⟩⟩

/-- Embedding of `TributeService._handle_new_digital_product`, step by
step in source order: falsy `telegram_user_id` is rejected with 400; a
missing user row is created and committed (500 on failure); the
remainder is `oneTimeAfterUser`. -/
def handleNewDigitalProduct (cfg : Config) (orc : Oracles)
    (data : WebhookData) (p : Payload) (db : DbState) : HandlerResult :=
  match p.telegram_user_id with
  | none => ⟨Except.ok ⟨400, "missing_telegram_user_id"⟩, db, emptyTrace⟩
  | some tg =>
    if tg = 0 then ⟨Except.ok ⟨400, "missing_telegram_user_id"⟩, db, emptyTrace⟩
    else
      match (if tg ∈ db.users then some db
             else if orc.createUserOk then some (addUser db tg) else none) with
      | none => ⟨Except.ok ⟨500, "user_creation_failed"⟩, db, emptyTrace⟩
      | some s1 => oneTimeAfterUser cfg orc data p tg s1

/-- Portion of `TributeService._handle_subscription_event` after the
user row is ensured, starting from committed state `s1`: a stored
row under the derived provider payment id short-circuits with 200; the
payment row is inserted with status `pending` and the months value
clamped to at least 1, then committed (the insert runs unguarded, so
its failure escapes the handler); the activation call runs in its own
try whose exception is only logged; the row status is then set to
`succeeded` or `failed` by the activation result; the referral bonus
runs, only after successful activation, in its own try whose exception
is only logged; everything is committed; the notification call, made
only after successful activation, is fully guarded. -/
def subAfterUser (orc : Oracles) (p : Payload) (tg : Int) (s1 : DbState) : HandlerResult :=
  let months : ℚ := periodToMonths (p.period.getD "monthly")
  let currency : String := pyUpper (p.currency.getD "rub")
  let amountFloat : ℚ := normalizeAmount (p.amount.getD 0) currency
  let pid := subPid p
  if hasPayment s1 pid then ⟨Except.ok ⟨200, "OK"⟩, s1, emptyTrace⟩
  else if orc.createPaymentOk = false then ⟨Except.error (), s1, emptyTrace⟩
  else
    let payRec : PaymentRecord :=
      ⟨s1.nextPaymentId, tg, amountFloat, currency, "pending", clampMonths months,
       "tribute", pid, none⟩
    let s2 : DbState :=
      { s1 with payments := s1.payments ++ [payRec], nextPaymentId := s1.nextPaymentId + 1 }
    let act : Option Unit :=
      match orc.activation with
      | Except.error _ => none
      | Except.ok a => a
    let s3 : DbState :=
      if act.isSome then { s2 with activations := s2.activations ++ [payRec.payment_id] } else s2
    let s4 : DbState :=
      setPaymentStatus s3 payRec.payment_id (if act.isSome then "succeeded" else "failed")
    let s5 : DbState :=
      if act.isSome then
        match orc.referral with
        | Except.error _ => s4
        | Except.ok refb =>
          if refb.isSome then { s4 with bonuses := s4.bonuses ++ [payRec.payment_id] } else s4
      else s4
    ⟨Except.ok ⟨200, "OK"⟩, s5,
     ⟨[clampMonths months], if act.isSome then 1 else 0,
      if act.isSome then [clampMonths months] else []⟩⟩

/-- Embedding of `TributeService._handle_subscription_event`, step by
step in source order: falsy `telegram_user_id` is rejected with 400; a
missing user row is created and committed (500 on failure); the
remainder is `subAfterUser`. -/
def handleSubscriptionEvent (cfg : Config) (orc : Oracles)
    (data : WebhookData) (p : Payload) (db : DbState) : HandlerResult :=
  match p.telegram_user_id with
  | none => ⟨Except.ok ⟨400, "missing_telegram_user_id"⟩, db, emptyTrace⟩
  | some tg =>
    if tg = 0 then ⟨Except.ok ⟨400, "missing_telegram_user_id"⟩, db, emptyTrace⟩
    else
      match (if tg ∈ db.users then some db
             else if orc.createUserOk then some (addUser db tg) else none) with
      | none => ⟨Except.ok ⟨500, "user_creation_failed"⟩, db, emptyTrace⟩
      | some s1 => subAfterUser orc p tg s1

/-- Embedding of the dispatch portion of `TributeService.webhook_route`,
from the point where the body has been decoded: route by the `name` tag
to the one-time-purchase handler, the subscription-event handler, or a
logged 200 acknowledgment (refund, cancellation, unknown tag). -/
def routeDecoded (cfg : Config) (orc : Oracles) (data : WebhookData) (db : DbState) : HandlerResult :=
  let eventName := data.name.getD ""
  let payload := (data.payload).getD emptyPayload
  if eventName = "new_digital_product" then
    handleNewDigitalProduct cfg orc data payload db
  else if eventName = "digitalProductRefund" then
    ⟨Except.ok ⟨200, "OK"⟩, db, emptyTrace⟩
  else if eventName = "newSubscription" ∨ eventName = "renewedSubscription" ∨
      eventName = "new_subscription" ∨ eventName = "renewed_subscription" then
    handleSubscriptionEvent cfg orc data payload db
  else if eventName = "cancelledSubscription" ∨ eventName = "cancelled_subscription" then
    ⟨Except.ok ⟨200, "OK"⟩, db, emptyTrace⟩
  else
    ⟨Except.ok ⟨200, "OK"⟩, db, emptyTrace⟩

/-! ### Spec-side definitions and query helpers -/

/-- Modelled from the spec's words for comparison with
`parseMonthsFromProduct`: the first configured link containing an
encoding of the product id wins, and the result defaults to 1 when no
link matches. -/
def monthsSpecOfLinks (links : List (Nat × String)) (productId : Option Int) : Nat :=
  ((links.find? (fun ml => linkMatches productId ml.2)).map Prod.fst).getD 1

/-- Lookup of the stored payment row with the given provider payment id. -/
def paymentRow (s : DbState) (pid : String) : Option PaymentRecord :=
  s.payments.find? (fun q => q.provider_payment_id == pid)

/-- Status column of the stored payment row with the given provider
payment id. -/
def paymentStatus (s : DbState) (pid : String) : Option String :=
  (paymentRow s pid).map PaymentRecord.status

/-- Months column of the stored payment row with the given provider
payment id. -/
def paymentMonths (s : DbState) (pid : String) : Option ℚ :=
  (paymentRow s pid).map PaymentRecord.months

/-! ### Concrete fixtures for witnesses and counterexamples -/

/-- Notification oracles in which every step succeeds. -/
def okNotif : NotifOracles := ⟨Except.ok (), Except.ok (), Except.ok ()⟩

/-- Collaborator oracles in which every call succeeds and both the
activation and the referral bonus return a truthy result. -/
def okOracles : Oracles := ⟨true, true, Except.ok (some ()), Except.ok (some ()), okNotif⟩

/-- Settings with one configured 1-month link for product 10 and
subscription sale mode. -/
def exCfg : Config := ⟨[(1, "https://t.me/tribute/app?startapp=p10")], false⟩

/-- One-time purchase payload of the spec's worked example. -/
def exPayload : Payload := ⟨some 555, some 10, some 500, some "usd", some 31326, none, none, none⟩

/-- Webhook document of the spec's worked example. -/
def exData : WebhookData := ⟨some "new_digital_product", some "2025-03-20T01:15:58.332Z", some exPayload⟩

/-- Database already holding user 555 and no payments. -/
def exDb : DbState := ⟨[555], [], [], [], 1⟩

/-- One-time purchase payload in a currency kept in major units. -/
def rubPayload : Payload := ⟨some 555, some 10, some 500, some "rub", some 31326, none, none, none⟩

/-- Webhook document wrapping `rubPayload`. -/
def rubData : WebhookData := ⟨some "new_digital_product", some "2025-03-20T01:15:58.332Z", some rubPayload⟩

/-- Subscription payload with a monthly period. -/
def subPayload : Payload := ⟨some 777, none, some 500, some "rub", some 31326, some 42, some "monthly", some 7⟩

/-- Webhook document wrapping `subPayload`. -/
def subData : WebhookData := ⟨some "newSubscription", none, some subPayload⟩

/-- Database already holding user 777 and no payments. -/
def subDb : DbState := ⟨[777], [], [], [], 1⟩

/-- Oracles in which the activation collaborator raises. -/
def errActOracles : Oracles := ⟨true, true, Except.error (), Except.ok (some ()), okNotif⟩

/-- Oracles in which the activation collaborator returns a non-activated
result without raising. -/
def noActOracles : Oracles := ⟨true, true, Except.ok none, Except.ok (some ()), okNotif⟩

/-- Oracles in which composing the success notification raises. -/
def errComposeOracles : Oracles :=
  ⟨true, true, Except.ok (some ()), Except.ok (some ()), ⟨Except.error (), Except.ok (), Except.ok ()⟩⟩

/-! ### Helper lemmas -/

theorem one_le_clampMonths (m : ℚ) : 1 ≤ clampMonths m := by
  unfold clampMonths
  cases h : Rat.blt m 1 with
  | true => simp
  | false =>
    simp only [Bool.false_eq_true, if_false]
    exact h

theorem clampMonths_of_lt (m : ℚ) (h : m < 1) : clampMonths m = 1 := by
  unfold clampMonths
  rw [if_pos (show Rat.blt m 1 = true from h)]

end TributeModel

namespace TributeModel

/-! ### Claim C1: idempotent redelivery -/

theorem setPaymentStatus_users (s : DbState) (i : Nat) (st : String) :
    (setPaymentStatus s i st).users = s.users := rfl

theorem hasPayment_setPaymentStatus (s : DbState) (i : Nat) (st : String) (pid : String) :
    hasPayment (setPaymentStatus s i st) pid = hasPayment s pid := by
  simp only [hasPayment, setPaymentStatus, List.any_map]
  congr 1
  funext q
  by_cases hq : q.payment_id = i <;> simp [hq, Function.comp]

theorem oneTime_afterUser_post (cfg : Config) (orc : Oracles) (data : WebhookData)
    (p : Payload) (tg : Int) (s1 : DbState)
    (h : (oneTimeAfterUser cfg orc data p tg s1).outcome = Except.ok ⟨200, "OK"⟩) :
    (oneTimeAfterUser cfg orc data p tg s1).state.users = s1.users ∧
    hasPayment (oneTimeAfterUser cfg orc data p tg s1).state (oneTimePid data p) = true := by
  by_cases hdup : hasPayment s1 (oneTimePid data p) = true
  · simp only [oneTimeAfterUser, hdup]
    simpa using hdup
  · have hdup2 : hasPayment s1 (oneTimePid data p) = false := by simpa using hdup
    by_cases hcp : orc.createPaymentOk = false
    · simp only [oneTimeAfterUser, hdup2, hcp] at h
      simp at h
    · have hcp2 : orc.createPaymentOk = true := by simpa using hcp
      rcases hact : orc.activation with e | act
      · simp only [oneTimeAfterUser, hdup2, hcp2, hact] at h
        simp at h
      · by_cases htr : cfg.traffic_sale_mode
        · rcases hnot : sendSuccessNotification orc.notif with e2 | u2
          · simp only [oneTimeAfterUser, hdup2, hcp2, hact, htr, hnot] at h
            simp at h
          · rcases act with _ | u <;>
              · simp only [oneTimeAfterUser, hdup2, hcp2, hact, htr, hnot]
                simp [hasPayment, List.any_append]
        · have htr2 : cfg.traffic_sale_mode = false := by simpa using htr
          rcases href : orc.referral with e3 | refb
          · simp only [oneTimeAfterUser, hdup2, hcp2, hact, htr2, href] at h
            simp at h
          · rcases hnot : sendSuccessNotification orc.notif with e2 | u2
            · simp only [oneTimeAfterUser, hdup2, hcp2, hact, htr2, href, hnot] at h
              simp at h
            · rcases act with _ | u <;> rcases refb with _ | v <;>
                · simp only [oneTimeAfterUser, hdup2, hcp2, hact, htr2, href, hnot]
                  simp [hasPayment, List.any_append]

theorem oneTime_ok_post (cfg : Config) (orc : Oracles) (data : WebhookData)
    (p : Payload) (db : DbState)
    (h : (handleNewDigitalProduct cfg orc data p db).outcome = Except.ok ⟨200, "OK"⟩) :
    ∃ tg, p.telegram_user_id = some tg ∧ ¬tg = 0 ∧
      tg ∈ (handleNewDigitalProduct cfg orc data p db).state.users ∧
      hasPayment (handleNewDigitalProduct cfg orc data p db).state (oneTimePid data p) = true := by
  rcases htg : p.telegram_user_id with _ | tg
  · simp [handleNewDigitalProduct, htg] at h
  · by_cases h0 : tg = 0
    · simp [handleNewDigitalProduct, htg, h0] at h
    · refine ⟨tg, rfl, h0, ?_⟩
      by_cases hu : tg ∈ db.users
      · have hred : handleNewDigitalProduct cfg orc data p db = oneTimeAfterUser cfg orc data p tg db := by
          simp [handleNewDigitalProduct, htg, h0, hu]
        rw [hred] at h ⊢
        have hpost := oneTime_afterUser_post cfg orc data p tg db h
        exact ⟨by rw [hpost.1]; exact hu, hpost.2⟩
      · by_cases hcu : orc.createUserOk = true
        · have hred : handleNewDigitalProduct cfg orc data p db
              = oneTimeAfterUser cfg orc data p tg (addUser db tg) := by
            simp [handleNewDigitalProduct, htg, h0, hu, hcu]
          rw [hred] at h ⊢
          have hpost := oneTime_afterUser_post cfg orc data p tg (addUser db tg) h
          exact ⟨by rw [hpost.1]; simp [addUser], hpost.2⟩
        · have hcu2 : orc.createUserOk = false := by simpa using hcu
          simp [handleNewDigitalProduct, htg, h0, hu, hcu2] at h

theorem oneTime_duplicate (cfg : Config) (orc : Oracles) (data : WebhookData)
    (p : Payload) (db : DbState) (tg : Int)
    (htg : p.telegram_user_id = some tg) (h0 : ¬tg = 0) (hu : tg ∈ db.users)
    (hp : hasPayment db (oneTimePid data p) = true) :
    handleNewDigitalProduct cfg orc data p db = ⟨Except.ok ⟨200, "OK"⟩, db, emptyTrace⟩ := by
  simp [handleNewDigitalProduct, oneTimeAfterUser, htg, h0, hu, hp]

theorem sub_afterUser_post (orc : Oracles) (p : Payload) (tg : Int) (s1 : DbState)
    (h : (subAfterUser orc p tg s1).outcome = Except.ok ⟨200, "OK"⟩) :
    (subAfterUser orc p tg s1).state.users = s1.users ∧
    hasPayment (subAfterUser orc p tg s1).state (subPid p) = true := by
  by_cases hdup : hasPayment s1 (subPid p) = true
  · simp [subAfterUser, hdup]
  · have hdup2 : hasPayment s1 (subPid p) = false := by simpa using hdup
    by_cases hcp : orc.createPaymentOk = false
    · simp [subAfterUser, hdup2, hcp] at h
    · have hcp2 : orc.createPaymentOk = true := by simpa using hcp
      rcases hact : orc.activation with e | act
      · simp only [subAfterUser, hdup2, hcp2, hact]
        simp [hasPayment, setPaymentStatus, List.any_append, List.map_append]
      · rcases act with _ | u
        · simp only [subAfterUser, hdup2, hcp2, hact]
          simp [hasPayment, setPaymentStatus, List.any_append, List.map_append]
        · rcases href : orc.referral with e3 | refb
          · simp only [subAfterUser, hdup2, hcp2, hact, href]
            simp [hasPayment, setPaymentStatus, List.any_append, List.map_append]
          · rcases refb with _ | v <;>
              · simp only [subAfterUser, hdup2, hcp2, hact, href]
                simp [hasPayment, setPaymentStatus, List.any_append, List.map_append]

theorem sub_ok_post (cfg : Config) (orc : Oracles) (data : WebhookData)
    (p : Payload) (db : DbState)
    (h : (handleSubscriptionEvent cfg orc data p db).outcome = Except.ok ⟨200, "OK"⟩) :
    ∃ tg, p.telegram_user_id = some tg ∧ ¬tg = 0 ∧
      tg ∈ (handleSubscriptionEvent cfg orc data p db).state.users ∧
      hasPayment (handleSubscriptionEvent cfg orc data p db).state (subPid p) = true := by
  rcases htg : p.telegram_user_id with _ | tg
  · simp [handleSubscriptionEvent, htg] at h
  · by_cases h0 : tg = 0
    · simp [handleSubscriptionEvent, htg, h0] at h
    · refine ⟨tg, rfl, h0, ?_⟩
      by_cases hu : tg ∈ db.users
      · have hred : handleSubscriptionEvent cfg orc data p db = subAfterUser orc p tg db := by
          simp [handleSubscriptionEvent, htg, h0, hu]
        rw [hred] at h ⊢
        have hpost := sub_afterUser_post orc p tg db h
        exact ⟨by rw [hpost.1]; exact hu, hpost.2⟩
      · by_cases hcu : orc.createUserOk = true
        · have hred : handleSubscriptionEvent cfg orc data p db
              = subAfterUser orc p tg (addUser db tg) := by
            simp [handleSubscriptionEvent, htg, h0, hu, hcu]
          rw [hred] at h ⊢
          have hpost := sub_afterUser_post orc p tg (addUser db tg) h
          exact ⟨by rw [hpost.1]; simp [addUser], hpost.2⟩
        · have hcu2 : orc.createUserOk = false := by simpa using hcu
          simp [handleSubscriptionEvent, htg, h0, hu, hcu2] at h

theorem sub_duplicate (cfg : Config) (orc : Oracles) (data : WebhookData)
    (p : Payload) (db : DbState) (tg : Int)
    (htg : p.telegram_user_id = some tg) (h0 : ¬tg = 0) (hu : tg ∈ db.users)
    (hp : hasPayment db (subPid p) = true) :
    handleSubscriptionEvent cfg orc data p db = ⟨Except.ok ⟨200, "OK"⟩, db, emptyTrace⟩ := by
  simp [handleSubscriptionEvent, subAfterUser, htg, h0, hu, hp]

/-- C1: once a delivery of a webhook body has been answered 200 `OK`,
redelivering the same body — with any collaborator behavior — finds the
stored payment row under the same derived provider payment id and is a
no-op acknowledgment: 200 `OK`, unchanged database, and no collaborator
call (in particular no second activation call), on both the
one-time-purchase path and the subscription-event path. -/
theorem c1_redelivery_noop (cfg : Config) (o1 o2 : Oracles) (data : WebhookData)
    (p : Payload) (db : DbState) :
    ((handleNewDigitalProduct cfg o1 data p db).outcome = Except.ok ⟨200, "OK"⟩ →
      handleNewDigitalProduct cfg o2 data p (handleNewDigitalProduct cfg o1 data p db).state
        = ⟨Except.ok ⟨200, "OK"⟩, (handleNewDigitalProduct cfg o1 data p db).state, emptyTrace⟩) ∧
    ((handleSubscriptionEvent cfg o1 data p db).outcome = Except.ok ⟨200, "OK"⟩ →
      handleSubscriptionEvent cfg o2 data p (handleSubscriptionEvent cfg o1 data p db).state
        = ⟨Except.ok ⟨200, "OK"⟩, (handleSubscriptionEvent cfg o1 data p db).state, emptyTrace⟩) := by
  constructor
  · intro h
    obtain ⟨tg, htg, h0, hu, hp⟩ := oneTime_ok_post cfg o1 data p db h
    exact oneTime_duplicate cfg o2 data p _ tg htg h0 hu hp
  · intro h
    obtain ⟨tg, htg, h0, hu, hp⟩ := sub_ok_post cfg o1 data p db h
    exact sub_duplicate cfg o2 data p _ tg htg h0 hu hp

/-- Witness for C1: a concrete first delivery is answered 200 `OK`, and
the theorem then makes the concrete redelivery a no-op. -/
theorem c1_redelivery_noop_witness :
    (handleNewDigitalProduct exCfg okOracles rubData rubPayload exDb).outcome = Except.ok ⟨200, "OK"⟩ ∧
    handleNewDigitalProduct exCfg okOracles rubData rubPayload
        (handleNewDigitalProduct exCfg okOracles rubData rubPayload exDb).state
      = ⟨Except.ok ⟨200, "OK"⟩, (handleNewDigitalProduct exCfg okOracles rubData rubPayload exDb).state,
         emptyTrace⟩ :=
  ⟨by decide, (c1_redelivery_noop exCfg okOracles okOracles rubData rubPayload exDb).1 (by decide)⟩

/-! ### Row-lookup helper lemmas -/

theorem findRow_append (ps : List PaymentRecord) (q : PaymentRecord) (pid : String)
    (hnp : ps.any (fun r => r.provider_payment_id == pid) = false)
    (hq : q.provider_payment_id = pid) :
    (ps ++ [q]).find? (fun r => r.provider_payment_id == pid) = some q := by
  induction ps with
  | nil => simp [List.find?, hq]
  | cons r rs ih =>
    rw [List.any_cons, Bool.or_eq_false_iff] at hnp
    simp only [List.cons_append, List.find?, hnp.1]
    exact ih hnp.2

theorem findRow_map_append (ps : List PaymentRecord) (q : PaymentRecord) (i : Nat)
    (st : String) (pid : String)
    (hnp : ps.any (fun r => r.provider_payment_id == pid) = false)
    (hq : q.provider_payment_id = pid) (hqi : q.payment_id = i) :
    ((ps ++ [q]).map (fun r => if r.payment_id = i then { r with status := st } else r)).find?
        (fun r => r.provider_payment_id == pid) = some { q with status := st } := by
  induction ps with
  | nil => simp [List.find?, hq, hqi]
  | cons r rs ih =>
    rw [List.any_cons, Bool.or_eq_false_iff] at hnp
    by_cases hr : r.payment_id = i
    · simp only [List.cons_append, List.map_cons, List.find?, hr, ite_true, eq_self_iff_true, if_pos]
      rw [hnp.1]
      exact ih hnp.2
    · simp only [List.cons_append, List.map_cons, List.find?, if_neg hr]
      rw [hnp.1]
      exact ih hnp.2

/-! ### Claim C2: transactional behavior around activation -/

theorem oneTime_activation_error (cfg : Config) (orc : Oracles) (data : WebhookData)
    (p : Payload) (db : DbState) (tg : Int)
    (htg : p.telegram_user_id = some tg) (h0 : ¬tg = 0) (hu : tg ∈ db.users)
    (hnd : hasPayment db (oneTimePid data p) = false) (hcp : orc.createPaymentOk = true)
    (hact : orc.activation = Except.error ()) :
    (handleNewDigitalProduct cfg orc data p db).outcome = Except.ok ⟨500, "activation_error"⟩ ∧
    (handleNewDigitalProduct cfg orc data p db).state.activations = db.activations ∧
    (handleNewDigitalProduct cfg orc data p db).state.bonuses = db.bonuses := by
  have hred : handleNewDigitalProduct cfg orc data p db = oneTimeAfterUser cfg orc data p tg db := by
    simp [handleNewDigitalProduct, htg, h0, hu]
  rw [hred]
  simp only [oneTimeAfterUser, hnd, hcp, hact, Bool.false_eq_true, Bool.true_eq_false,
    if_false, if_true, ite_false, ite_true]
  exact ⟨trivial, trivial, trivial⟩

theorem oneTime_referral_error (cfg : Config) (orc : Oracles) (data : WebhookData)
    (p : Payload) (db : DbState) (tg : Int) (a : Option Unit)
    (htg : p.telegram_user_id = some tg) (h0 : ¬tg = 0) (hu : tg ∈ db.users)
    (hnd : hasPayment db (oneTimePid data p) = false) (hcp : orc.createPaymentOk = true)
    (hact : orc.activation = Except.ok a) (htr : cfg.traffic_sale_mode = false)
    (href : orc.referral = Except.error ()) :
    (handleNewDigitalProduct cfg orc data p db).outcome = Except.ok ⟨500, "activation_error"⟩ ∧
    (handleNewDigitalProduct cfg orc data p db).state.activations = db.activations ∧
    (handleNewDigitalProduct cfg orc data p db).state.bonuses = db.bonuses := by
  have hred : handleNewDigitalProduct cfg orc data p db = oneTimeAfterUser cfg orc data p tg db := by
    simp [handleNewDigitalProduct, htg, h0, hu]
  rw [hred]
  simp only [oneTimeAfterUser, hnd, hcp, hact, htr, Bool.false_eq_true, Bool.true_eq_false,
    if_false, if_true, ite_false, ite_true, href]
  exact ⟨trivial, trivial, trivial⟩

theorem sub_activation_error (cfg : Config) (orc : Oracles) (data : WebhookData)
    (p : Payload) (db : DbState) (tg : Int)
    (htg : p.telegram_user_id = some tg) (h0 : ¬tg = 0) (hu : tg ∈ db.users)
    (hnd : hasPayment db (subPid p) = false) (hcp : orc.createPaymentOk = true)
    (hact : orc.activation = Except.error ()) :
    (handleSubscriptionEvent cfg orc data p db).outcome = Except.ok ⟨200, "OK"⟩ ∧
    paymentStatus (handleSubscriptionEvent cfg orc data p db).state (subPid p) = some "failed" ∧
    (handleSubscriptionEvent cfg orc data p db).state.activations = db.activations ∧
    (handleSubscriptionEvent cfg orc data p db).trace.refCalls = 0 := by
  have hred : handleSubscriptionEvent cfg orc data p db = subAfterUser orc p tg db := by
    simp [handleSubscriptionEvent, htg, h0, hu]
  rw [hred]
  simp only [subAfterUser, hnd, hcp, hact, Bool.false_eq_true, Bool.true_eq_false,
    if_false, if_true, ite_false, ite_true, Option.isSome_none]
  refine ⟨trivial, ?_, by simp [setPaymentStatus], trivial⟩
  simp only [paymentStatus, paymentRow, setPaymentStatus]
  rw [findRow_map_append db.payments
      ⟨db.nextPaymentId, tg, normalizeAmount (p.amount.getD 0) (pyUpper (p.currency.getD "rub")),
       pyUpper (p.currency.getD "rub"), "pending", clampMonths (periodToMonths (p.period.getD "monthly")),
       "tribute", subPid p, none⟩
      db.nextPaymentId "failed" (subPid p) hnd rfl rfl]
  rfl

theorem sub_referral_error (cfg : Config) (orc : Oracles) (data : WebhookData)
    (p : Payload) (db : DbState) (tg : Int)
    (htg : p.telegram_user_id = some tg) (h0 : ¬tg = 0) (hu : tg ∈ db.users)
    (hnd : hasPayment db (subPid p) = false) (hcp : orc.createPaymentOk = true)
    (hact : orc.activation = Except.ok (some ())) (href : orc.referral = Except.error ()) :
    (handleSubscriptionEvent cfg orc data p db).outcome = Except.ok ⟨200, "OK"⟩ ∧
    paymentStatus (handleSubscriptionEvent cfg orc data p db).state (subPid p) = some "succeeded" ∧
    (handleSubscriptionEvent cfg orc data p db).state.bonuses = db.bonuses ∧
    (handleSubscriptionEvent cfg orc data p db).trace.refCalls = 1 := by
  have hred : handleSubscriptionEvent cfg orc data p db = subAfterUser orc p tg db := by
    simp [handleSubscriptionEvent, htg, h0, hu]
  rw [hred]
  simp only [subAfterUser, hnd, hcp, hact, href, Bool.false_eq_true, Bool.true_eq_false,
    if_false, if_true, ite_false, ite_true, Option.isSome_some]
  refine ⟨trivial, ?_, by simp [setPaymentStatus], trivial⟩
  simp only [paymentStatus, paymentRow, setPaymentStatus]
  rw [findRow_map_append db.payments
      ⟨db.nextPaymentId, tg, normalizeAmount (p.amount.getD 0) (pyUpper (p.currency.getD "rub")),
       pyUpper (p.currency.getD "rub"), "pending", clampMonths (periodToMonths (p.period.getD "monthly")),
       "tribute", subPid p, none⟩
      db.nextPaymentId "succeeded" (subPid p) hnd rfl rfl]
  rfl

/-- Counterexample to C2 as stated: on the subscription-event path an
activation exception is caught, the payment row is committed with
status `failed` (durable state is mutated, not rolled back), and the
handler answers 200 rather than a 5xx. -/
theorem c2_counterexample :
    (handleSubscriptionEvent exCfg errActOracles subData subPayload subDb).outcome
      = Except.ok ⟨200, "OK"⟩ ∧
    (handleSubscriptionEvent exCfg errActOracles subData subPayload subDb).state ≠ subDb ∧
    paymentStatus (handleSubscriptionEvent exCfg errActOracles subData subPayload subDb).state
      (subPid subPayload) = some "failed" := by
  refine ⟨by decide, by decide, by decide⟩

/-- C2 (amended): the all-or-nothing rollback with a 5xx answer holds
only on the one-time-purchase path: there, an exception from the
activation call or from the referral-bonus call rolls the unit of work
back (no activation or bonus effect lands) and the handler answers 500.
On the subscription-event path both kinds of exception are caught
locally and the handler answers 200: an activation exception leads to
the payment row being committed with status `failed` and no referral
call, while a referral-bonus exception raised after a successful
activation leaves the row committed with status `succeeded` (the
activation outcome stands) with no bonus effect landed. -/
theorem c2_activation_exception_paths (cfg : Config) (orc : Oracles) (data : WebhookData)
    (p : Payload) (db : DbState) (tg : Int)
    (htg : p.telegram_user_id = some tg) (h0 : ¬tg = 0) (hu : tg ∈ db.users) :
    (hasPayment db (oneTimePid data p) = false → orc.createPaymentOk = true →
      orc.activation = Except.error () →
      (handleNewDigitalProduct cfg orc data p db).outcome = Except.ok ⟨500, "activation_error"⟩ ∧
      (handleNewDigitalProduct cfg orc data p db).state.activations = db.activations ∧
      (handleNewDigitalProduct cfg orc data p db).state.bonuses = db.bonuses) ∧
    (∀ a, hasPayment db (oneTimePid data p) = false → orc.createPaymentOk = true →
      orc.activation = Except.ok a → cfg.traffic_sale_mode = false →
      orc.referral = Except.error () →
      (handleNewDigitalProduct cfg orc data p db).outcome = Except.ok ⟨500, "activation_error"⟩ ∧
      (handleNewDigitalProduct cfg orc data p db).state.activations = db.activations ∧
      (handleNewDigitalProduct cfg orc data p db).state.bonuses = db.bonuses) ∧
    (hasPayment db (subPid p) = false → orc.createPaymentOk = true →
      orc.activation = Except.error () →
      (handleSubscriptionEvent cfg orc data p db).outcome = Except.ok ⟨200, "OK"⟩ ∧
      paymentStatus (handleSubscriptionEvent cfg orc data p db).state (subPid p) = some "failed" ∧
      (handleSubscriptionEvent cfg orc data p db).state.activations = db.activations ∧
      (handleSubscriptionEvent cfg orc data p db).trace.refCalls = 0) ∧
    (hasPayment db (subPid p) = false → orc.createPaymentOk = true →
      orc.activation = Except.ok (some ()) → orc.referral = Except.error () →
      (handleSubscriptionEvent cfg orc data p db).outcome = Except.ok ⟨200, "OK"⟩ ∧
      paymentStatus (handleSubscriptionEvent cfg orc data p db).state (subPid p) = some "succeeded" ∧
      (handleSubscriptionEvent cfg orc data p db).state.bonuses = db.bonuses ∧
      (handleSubscriptionEvent cfg orc data p db).trace.refCalls = 1) :=
  ⟨fun hnd hcp hact => oneTime_activation_error cfg orc data p db tg htg h0 hu hnd hcp hact,
   fun a hnd hcp hact htr href =>
     oneTime_referral_error cfg orc data p db tg a htg h0 hu hnd hcp hact htr href,
   fun hnd hcp hact => sub_activation_error cfg orc data p db tg htg h0 hu hnd hcp hact,
   fun hnd hcp hact href => sub_referral_error cfg orc data p db tg htg h0 hu hnd hcp hact href⟩

/-- Witness for the amended C2 on the one-time path at concrete inputs. -/
theorem c2_activation_exception_paths_witness :
    (rubPayload.telegram_user_id = some 555 ∧
      hasPayment exDb (oneTimePid rubData rubPayload) = false ∧
      errActOracles.activation = Except.error ()) ∧
    ((handleNewDigitalProduct exCfg errActOracles rubData rubPayload exDb).outcome
        = Except.ok ⟨500, "activation_error"⟩ ∧
      (handleNewDigitalProduct exCfg errActOracles rubData rubPayload exDb).state.activations
        = exDb.activations ∧
      (handleNewDigitalProduct exCfg errActOracles rubData rubPayload exDb).state.bonuses
        = exDb.bonuses) :=
  ⟨⟨by decide, by decide, by decide⟩,
   (c2_activation_exception_paths exCfg errActOracles rubData rubPayload exDb 555
      (by decide) (by decide) (by decide)).1 (by decide) (by decide) (by decide)⟩

/-! ### Claim C3: status reconciliation and referral gating -/

theorem sub_activation_none (cfg : Config) (orc : Oracles) (data : WebhookData)
    (p : Payload) (db : DbState) (tg : Int)
    (htg : p.telegram_user_id = some tg) (h0 : ¬tg = 0) (hu : tg ∈ db.users)
    (hnd : hasPayment db (subPid p) = false) (hcp : orc.createPaymentOk = true)
    (hact : orc.activation = Except.ok none) :
    paymentStatus (handleSubscriptionEvent cfg orc data p db).state (subPid p) = some "failed" ∧
    (handleSubscriptionEvent cfg orc data p db).trace.refCalls = 0 := by
  have hred : handleSubscriptionEvent cfg orc data p db = subAfterUser orc p tg db := by
    simp [handleSubscriptionEvent, htg, h0, hu]
  rw [hred]
  simp only [subAfterUser, hnd, hcp, hact, Bool.false_eq_true, Bool.true_eq_false,
    if_false, if_true, ite_false, ite_true, Option.isSome_none]
  refine ⟨?_, trivial⟩
  simp only [paymentStatus, paymentRow, setPaymentStatus]
  rw [findRow_map_append db.payments
      ⟨db.nextPaymentId, tg, normalizeAmount (p.amount.getD 0) (pyUpper (p.currency.getD "rub")),
       pyUpper (p.currency.getD "rub"), "pending", clampMonths (periodToMonths (p.period.getD "monthly")),
       "tribute", subPid p, none⟩
      db.nextPaymentId "failed" (subPid p) hnd rfl rfl]
  rfl

theorem sub_activation_some (cfg : Config) (orc : Oracles) (data : WebhookData)
    (p : Payload) (db : DbState) (tg : Int)
    (htg : p.telegram_user_id = some tg) (h0 : ¬tg = 0) (hu : tg ∈ db.users)
    (hnd : hasPayment db (subPid p) = false) (hcp : orc.createPaymentOk = true)
    (hact : orc.activation = Except.ok (some ())) :
    paymentStatus (handleSubscriptionEvent cfg orc data p db).state (subPid p) = some "succeeded" ∧
    (handleSubscriptionEvent cfg orc data p db).trace.refCalls = 1 := by
  have hred : handleSubscriptionEvent cfg orc data p db = subAfterUser orc p tg db := by
    simp [handleSubscriptionEvent, htg, h0, hu]
  rw [hred]
  have hfind : ∀ s : DbState, s.payments =
      (db.payments ++
        [(⟨db.nextPaymentId, tg, normalizeAmount (p.amount.getD 0) (pyUpper (p.currency.getD "rub")),
          pyUpper (p.currency.getD "rub"), "pending",
          clampMonths (periodToMonths (p.period.getD "monthly")), "tribute", subPid p, none⟩ : PaymentRecord)]).map
        (fun r => if r.payment_id = db.nextPaymentId then { r with status := "succeeded" } else r) →
      paymentStatus s (subPid p) = some "succeeded" := by
    intro s hs
    simp only [paymentStatus, paymentRow, hs]
    rw [findRow_map_append db.payments
        ⟨db.nextPaymentId, tg, normalizeAmount (p.amount.getD 0) (pyUpper (p.currency.getD "rub")),
         pyUpper (p.currency.getD "rub"), "pending",
         clampMonths (periodToMonths (p.period.getD "monthly")), "tribute", subPid p, none⟩
        db.nextPaymentId "succeeded" (subPid p) hnd rfl rfl]
    rfl
  rcases href : orc.referral with e | rb
  · simp only [subAfterUser, hnd, hcp, hact, href, Bool.false_eq_true, Bool.true_eq_false,
      if_false, if_true, ite_false, ite_true, Option.isSome_some]
    exact ⟨hfind _ rfl, trivial⟩
  · rcases rb with _ | v
    · simp only [subAfterUser, hnd, hcp, hact, href, Bool.false_eq_true, Bool.true_eq_false,
        if_false, if_true, ite_false, ite_true, Option.isSome_some, Option.isSome_none]
      exact ⟨hfind _ rfl, trivial⟩
    · simp only [subAfterUser, hnd, hcp, hact, href, Bool.false_eq_true, Bool.true_eq_false,
        if_false, if_true, ite_false, ite_true, Option.isSome_some]
      exact ⟨hfind _ rfl, trivial⟩

theorem oneTime_result_ignored (cfg : Config) (orc : Oracles) (data : WebhookData)
    (p : Payload) (db : DbState) (tg : Int) (a b : Option Unit)
    (htg : p.telegram_user_id = some tg) (h0 : ¬tg = 0) (hu : tg ∈ db.users)
    (hnd : hasPayment db (oneTimePid data p) = false) (hcp : orc.createPaymentOk = true)
    (hact : orc.activation = Except.ok a) (htr : cfg.traffic_sale_mode = false)
    (href : orc.referral = Except.ok b) :
    paymentStatus (handleNewDigitalProduct cfg orc data p db).state (oneTimePid data p)
      = some "succeeded" ∧
    (handleNewDigitalProduct cfg orc data p db).trace.refCalls = 1 := by
  have hred : handleNewDigitalProduct cfg orc data p db = oneTimeAfterUser cfg orc data p tg db := by
    simp [handleNewDigitalProduct, htg, h0, hu]
  rw [hred]
  have hfind : ∀ s : DbState, s.payments =
      db.payments ++
        [(⟨db.nextPaymentId, tg, normalizeAmount (p.amount.getD 0) (pyUpper (p.currency.getD "usd")),
          pyUpper (p.currency.getD "usd"), "succeeded",
          (parseMonthsFromProduct cfg.tribute_links p.product_id : ℚ), "tribute", oneTimePid data p,
          some ("Tribute subscription " ++ toString (parseMonthsFromProduct cfg.tribute_links p.product_id)
            ++ " month(s)")⟩ : PaymentRecord)] →
      paymentStatus s (oneTimePid data p) = some "succeeded" := by
    intro s hs
    simp only [paymentStatus, paymentRow, hs]
    rw [findRow_append db.payments
        ⟨db.nextPaymentId, tg, normalizeAmount (p.amount.getD 0) (pyUpper (p.currency.getD "usd")),
         pyUpper (p.currency.getD "usd"), "succeeded",
         (parseMonthsFromProduct cfg.tribute_links p.product_id : ℚ), "tribute", oneTimePid data p,
         some ("Tribute subscription " ++ toString (parseMonthsFromProduct cfg.tribute_links p.product_id)
           ++ " month(s)")⟩
        (oneTimePid data p) hnd rfl]
    rfl
  rcases hnot : sendSuccessNotification orc.notif with e2 | u2 <;>
    rcases a with _ | ua <;> rcases b with _ | ub <;>
      simp only [oneTimeAfterUser, hnd, hcp, hact, htr, href, hnot, Bool.false_eq_true,
        Bool.true_eq_false, if_false, if_true, ite_false, ite_true, Option.isSome_some,
        Option.isSome_none] <;>
      exact ⟨hfind _ rfl, trivial⟩

theorem oneTime_traffic_no_referral (cfg : Config) (orc : Oracles) (data : WebhookData)
    (p : Payload) (db : DbState) (tg : Int) (a : Option Unit)
    (htg : p.telegram_user_id = some tg) (h0 : ¬tg = 0) (hu : tg ∈ db.users)
    (hnd : hasPayment db (oneTimePid data p) = false) (hcp : orc.createPaymentOk = true)
    (hact : orc.activation = Except.ok a) (htr : cfg.traffic_sale_mode = true) :
    (handleNewDigitalProduct cfg orc data p db).trace.refCalls = 0 := by
  have hred : handleNewDigitalProduct cfg orc data p db = oneTimeAfterUser cfg orc data p tg db := by
    simp [handleNewDigitalProduct, htg, h0, hu]
  rw [hred]
  rcases hnot : sendSuccessNotification orc.notif with e2 | u2 <;>
    rcases a with _ | ua <;>
      simp only [oneTimeAfterUser, hnd, hcp, hact, htr, hnot, Bool.false_eq_true,
        Bool.true_eq_false, if_false, if_true, ite_false, ite_true, Option.isSome_some,
        Option.isSome_none]

/-- Counterexample to C3 as stated: on the one-time-purchase path the
activation collaborator returns a non-activated result without raising,
yet the payment row keeps status `succeeded` (it is never advanced to
`failed`) and the referral-bonus collaborator is still invoked once. -/
theorem c3_counterexample :
    noActOracles.activation = Except.ok none ∧
    paymentStatus (handleNewDigitalProduct exCfg noActOracles rubData rubPayload exDb).state
      (oneTimePid rubData rubPayload) = some "succeeded" ∧
    (handleNewDigitalProduct exCfg noActOracles rubData rubPayload exDb).trace.refCalls = 1 := by
  refine ⟨by decide, by decide, by decide⟩

/-- C3 (amended): the claimed reconciliation holds only in the
subscription-event handler: there a non-activated result advances the
row to `failed` with no referral call, and a successful activation
advances it to `succeeded` with exactly one referral call. In the
one-time-purchase handler the row is created as `succeeded` before
activation and keeps that status regardless of the activation result,
and the referral-bonus collaborator is invoked whenever the activation
call does not raise — gated only by non-traffic sale mode, not by the
activation result. -/
theorem c3_status_and_referral (cfg : Config) (orc : Oracles) (data : WebhookData)
    (p : Payload) (db : DbState) (tg : Int)
    (htg : p.telegram_user_id = some tg) (h0 : ¬tg = 0) (hu : tg ∈ db.users) :
    (hasPayment db (subPid p) = false → orc.createPaymentOk = true →
      orc.activation = Except.ok none →
      paymentStatus (handleSubscriptionEvent cfg orc data p db).state (subPid p) = some "failed" ∧
      (handleSubscriptionEvent cfg orc data p db).trace.refCalls = 0) ∧
    (hasPayment db (subPid p) = false → orc.createPaymentOk = true →
      orc.activation = Except.ok (some ()) →
      paymentStatus (handleSubscriptionEvent cfg orc data p db).state (subPid p) = some "succeeded" ∧
      (handleSubscriptionEvent cfg orc data p db).trace.refCalls = 1) ∧
    (∀ a b, hasPayment db (oneTimePid data p) = false → orc.createPaymentOk = true →
      orc.activation = Except.ok a → cfg.traffic_sale_mode = false → orc.referral = Except.ok b →
      paymentStatus (handleNewDigitalProduct cfg orc data p db).state (oneTimePid data p)
        = some "succeeded" ∧
      (handleNewDigitalProduct cfg orc data p db).trace.refCalls = 1) ∧
    (∀ a, hasPayment db (oneTimePid data p) = false → orc.createPaymentOk = true →
      orc.activation = Except.ok a → cfg.traffic_sale_mode = true →
      (handleNewDigitalProduct cfg orc data p db).trace.refCalls = 0) :=
  ⟨fun hnd hcp hact => sub_activation_none cfg orc data p db tg htg h0 hu hnd hcp hact,
   fun hnd hcp hact => sub_activation_some cfg orc data p db tg htg h0 hu hnd hcp hact,
   fun a b hnd hcp hact htr href =>
     oneTime_result_ignored cfg orc data p db tg a b htg h0 hu hnd hcp hact htr href,
   fun a hnd hcp hact htr =>
     oneTime_traffic_no_referral cfg orc data p db tg a htg h0 hu hnd hcp hact htr⟩

/-- Witness for the amended C3 on the subscription path at concrete
inputs. -/
theorem c3_status_and_referral_witness :
    (noActOracles.activation = Except.ok none ∧
      hasPayment subDb (subPid subPayload) = false) ∧
    (paymentStatus (handleSubscriptionEvent exCfg noActOracles subData subPayload subDb).state
        (subPid subPayload) = some "failed" ∧
      (handleSubscriptionEvent exCfg noActOracles subData subPayload subDb).trace.refCalls = 0) :=
  ⟨⟨by decide, by decide⟩,
   (c3_status_and_referral exCfg noActOracles subData subPayload subDb 777
      (by decide) (by decide) (by decide)).1 (by decide) (by decide) (by decide)⟩

/-! ### Claim C5: notification failures -/

theorem oneTime_compose_error (cfg : Config) (orc : Oracles) (data : WebhookData)
    (p : Payload) (db : DbState) (tg : Int) (x b : Option Unit)
    (htg : p.telegram_user_id = some tg) (h0 : ¬tg = 0) (hu : tg ∈ db.users)
    (hnd : hasPayment db (oneTimePid data p) = false) (hcp : orc.createPaymentOk = true)
    (hact : orc.activation = Except.ok x) (htr : cfg.traffic_sale_mode = false)
    (href : orc.referral = Except.ok b) (hnc : orc.notif.compose = Except.error ()) :
    (handleNewDigitalProduct cfg orc data p db).outcome = Except.error () ∧
    (handleNewDigitalProduct cfg orc data p db).state
      = (handleNewDigitalProduct cfg { orc with notif := okNotif } data p db).state := by
  have hred : handleNewDigitalProduct cfg orc data p db = oneTimeAfterUser cfg orc data p tg db := by
    simp [handleNewDigitalProduct, htg, h0, hu]
  have hred2 : handleNewDigitalProduct cfg { orc with notif := okNotif } data p db
      = oneTimeAfterUser cfg { orc with notif := okNotif } data p tg db := by
    simp [handleNewDigitalProduct, htg, h0, hu]
  rw [hred, hred2]
  rcases x with _ | ux <;> rcases b with _ | ub <;>
    simp only [oneTimeAfterUser, hnd, hcp, hact, htr, href, hnc, okNotif,
      sendSuccessNotification, Bool.false_eq_true, Bool.true_eq_false, if_false, if_true,
      ite_false, ite_true, Option.isSome_some, Option.isSome_none] <;>
    exact ⟨trivial, trivial⟩

/-- Counterexample to C5 as stated: in the one-time-purchase handler an
exception raised while composing the notification is not caught — it
escapes the handler (the server then answers 500, not 200) — although
the already-committed payment and activation state is unchanged. -/
theorem c5_counterexample :
    (handleNewDigitalProduct exCfg errComposeOracles rubData rubPayload exDb).outcome
      = Except.error () ∧
    (handleNewDigitalProduct exCfg errComposeOracles rubData rubPayload exDb).state
      = (handleNewDigitalProduct exCfg okOracles rubData rubPayload exDb).state := by
  refine ⟨by decide, by decide⟩

/-- C5 (amended): notification failures never change committed state.
The subscription-event handler is insensitive to the notification
oracles altogether (every notification exception is caught), and in the
one-time-purchase handler failures of the user send or the admin notify
are caught and do not change the result; but an exception raised while
composing the notification in the one-time-purchase handler escapes the
handler — the HTTP status becomes a server-side 500 rather than 200 —
while the committed payment and activation state stays exactly that of
a run whose notification succeeds. -/
theorem c5_notification_failures (cfg : Config) (orc : Oracles) (data : WebhookData)
    (p : Payload) (db : DbState) :
    (∀ n n', handleSubscriptionEvent cfg { orc with notif := n } data p db
      = handleSubscriptionEvent cfg { orc with notif := n' } data p db) ∧
    (∀ c s a s' a', handleNewDigitalProduct cfg { orc with notif := ⟨c, s, a⟩ } data p db
      = handleNewDigitalProduct cfg { orc with notif := ⟨c, s', a'⟩ } data p db) ∧
    (∀ tg x b, p.telegram_user_id = some tg → ¬tg = 0 → tg ∈ db.users →
      hasPayment db (oneTimePid data p) = false → orc.createPaymentOk = true →
      orc.activation = Except.ok x → cfg.traffic_sale_mode = false → orc.referral = Except.ok b →
      orc.notif.compose = Except.error () →
      (handleNewDigitalProduct cfg orc data p db).outcome = Except.error () ∧
      (handleNewDigitalProduct cfg orc data p db).state
        = (handleNewDigitalProduct cfg { orc with notif := okNotif } data p db).state) :=
  ⟨fun n n' => rfl,
   fun c s a s' a' => rfl,
   fun tg x b htg h0 hu hnd hcp hact htr href hnc =>
     oneTime_compose_error cfg orc data p db tg x b htg h0 hu hnd hcp hact htr href hnc⟩

/-- Witness for the amended C5 at concrete inputs. -/
theorem c5_notification_failures_witness :
    (rubPayload.telegram_user_id = some 555 ∧
      errComposeOracles.notif.compose = Except.error ()) ∧
    ((handleNewDigitalProduct exCfg errComposeOracles rubData rubPayload exDb).outcome
        = Except.error () ∧
      (handleNewDigitalProduct exCfg errComposeOracles rubData rubPayload exDb).state
        = (handleNewDigitalProduct exCfg { errComposeOracles with notif := okNotif }
            rubData rubPayload exDb).state) :=
  ⟨⟨by decide, by decide⟩,
   (c5_notification_failures exCfg errComposeOracles rubData rubPayload exDb).2.2 555 (some ()) (some ())
     (by decide) (by decide) (by decide) (by decide) (by decide) (by decide) (by decide) (by decide)
     (by decide)⟩

/-! ### Claim C10: months clamping in the subscription handler -/

theorem sub_months_clamped (cfg : Config) (orc : Oracles) (data : WebhookData)
    (p : Payload) (db : DbState) (tg : Int)
    (htg : p.telegram_user_id = some tg) (h0 : ¬tg = 0) (hu : tg ∈ db.users)
    (hnd : hasPayment db (subPid p) = false) (hcp : orc.createPaymentOk = true) :
    paymentMonths (handleSubscriptionEvent cfg orc data p db).state (subPid p)
      = some (clampMonths (periodToMonths (p.period.getD "monthly"))) ∧
    (handleSubscriptionEvent cfg orc data p db).trace.actCalls
      = [clampMonths (periodToMonths (p.period.getD "monthly"))] ∧
    (orc.activation = Except.ok (some ()) →
      (handleSubscriptionEvent cfg orc data p db).trace.notifCalls
        = [clampMonths (periodToMonths (p.period.getD "monthly"))]) := by
  have hred : handleSubscriptionEvent cfg orc data p db = subAfterUser orc p tg db := by
    simp [handleSubscriptionEvent, htg, h0, hu]
  rw [hred]
  have hfind : ∀ (s : DbState) (st : String), s.payments =
      (db.payments ++
        [(⟨db.nextPaymentId, tg, normalizeAmount (p.amount.getD 0) (pyUpper (p.currency.getD "rub")),
          pyUpper (p.currency.getD "rub"), "pending",
          clampMonths (periodToMonths (p.period.getD "monthly")), "tribute", subPid p, none⟩
          : PaymentRecord)]).map
        (fun r => if r.payment_id = db.nextPaymentId then { r with status := st } else r) →
      paymentMonths s (subPid p) = some (clampMonths (periodToMonths (p.period.getD "monthly"))) := by
    intro s st hs
    simp only [paymentMonths, paymentRow, hs]
    rw [findRow_map_append db.payments
        ⟨db.nextPaymentId, tg, normalizeAmount (p.amount.getD 0) (pyUpper (p.currency.getD "rub")),
         pyUpper (p.currency.getD "rub"), "pending",
         clampMonths (periodToMonths (p.period.getD "monthly")), "tribute", subPid p, none⟩
        db.nextPaymentId st (subPid p) hnd rfl rfl]
    rfl
  rcases hact : orc.activation with e | act
  · simp only [subAfterUser, hnd, hcp, hact, Bool.false_eq_true, Bool.true_eq_false,
      if_false, if_true, ite_false, ite_true, Option.isSome_none, setPaymentStatus]
    refine ⟨hfind _ "failed" rfl, trivial, ?_⟩
    intro hco
    simp at hco
  · rcases act with _ | u
    · simp only [subAfterUser, hnd, hcp, hact, Bool.false_eq_true, Bool.true_eq_false,
        if_false, if_true, ite_false, ite_true, Option.isSome_none, setPaymentStatus]
      refine ⟨hfind _ "failed" rfl, trivial, ?_⟩
      intro hco
      simp at hco
    · rcases href : orc.referral with e3 | refb
      · simp only [subAfterUser, hnd, hcp, hact, href, Bool.false_eq_true, Bool.true_eq_false,
          if_false, if_true, ite_false, ite_true, Option.isSome_some, setPaymentStatus]
        exact ⟨hfind _ "succeeded" rfl, trivial, fun _ => trivial⟩
      · rcases refb with _ | v <;>
          simp only [subAfterUser, hnd, hcp, hact, href, Bool.false_eq_true, Bool.true_eq_false,
            if_false, if_true, ite_false, ite_true, Option.isSome_some, Option.isSome_none,
            setPaymentStatus] <;>
          exact ⟨hfind _ "succeeded" rfl, trivial, fun _ => trivial⟩

/-- C10: every months value the subscription-event handler persists,
passes to activation, or reports in the success notification is the
period table's value clamped to at least 1: the clamp is bounded below
by 1, equals 1 whenever the raw table value is below 1 (as for
`weekly`, whose raw value is 1/4), and is exactly what lands in the
payment row, the activation call, and the notification call. -/
theorem c10_months_clamped :
    (∀ m : ℚ, 1 ≤ clampMonths m) ∧
    (∀ m : ℚ, m < 1 → clampMonths m = 1) ∧
    periodToMonths "weekly" = 1 / 4 ∧
    clampMonths (periodToMonths "weekly") = 1 ∧
    (∀ (cfg : Config) (orc : Oracles) (data : WebhookData) (p : Payload) (db : DbState) (tg : Int),
      p.telegram_user_id = some tg → ¬tg = 0 → tg ∈ db.users →
      hasPayment db (subPid p) = false → orc.createPaymentOk = true →
      paymentMonths (handleSubscriptionEvent cfg orc data p db).state (subPid p)
        = some (clampMonths (periodToMonths (p.period.getD "monthly"))) ∧
      (handleSubscriptionEvent cfg orc data p db).trace.actCalls
        = [clampMonths (periodToMonths (p.period.getD "monthly"))] ∧
      (orc.activation = Except.ok (some ()) →
        (handleSubscriptionEvent cfg orc data p db).trace.notifCalls
          = [clampMonths (periodToMonths (p.period.getD "monthly"))])) :=
  ⟨one_le_clampMonths, clampMonths_of_lt, by with_unfolding_all decide, by with_unfolding_all decide,
   fun cfg orc data p db tg htg h0 hu hnd hcp =>
     sub_months_clamped cfg orc data p db tg htg h0 hu hnd hcp⟩

/-- Witness for C10 at concrete inputs with a monthly period. -/
theorem c10_months_clamped_witness :
    (subPayload.telegram_user_id = some 777 ∧
      hasPayment subDb (subPid subPayload) = false) ∧
    (paymentMonths (handleSubscriptionEvent exCfg okOracles subData subPayload subDb).state
        (subPid subPayload)
        = some (clampMonths (periodToMonths (subPayload.period.getD "monthly"))) ∧
      (handleSubscriptionEvent exCfg okOracles subData subPayload subDb).trace.actCalls
        = [clampMonths (periodToMonths (subPayload.period.getD "monthly"))] ∧
      (okOracles.activation = Except.ok (some ()) →
        (handleSubscriptionEvent exCfg okOracles subData subPayload subDb).trace.notifCalls
          = [clampMonths (periodToMonths (subPayload.period.getD "monthly"))])) :=
  ⟨⟨by decide, by decide⟩,
   c10_months_clamped.2.2.2.2 exCfg okOracles subData subPayload subDb 777
     (by decide) (by decide) (by decide) (by decide) (by decide)⟩

/-! ### Claim C4: signature verification -/

theorem toLower_hexChar : ∀ n, n < 16 → Char.toLower (hexChar n) = hexChar n := by decide

theorem hexChars_map_toLower (l : List Nat) (h : ∀ b ∈ l, b < 256) :
    (hexChars l).map Char.toLower = hexChars l := by
  induction l with
  | nil => rfl
  | cons b t ih =>
    have hb : b < 256 := h b (by simp)
    have h1 : b / 16 < 16 := by omega
    have h2 : b % 16 < 16 := by omega
    simp [hexChars, toLower_hexChar _ h1, toLower_hexChar _ h2,
      ih (fun x hx => h x (by simp [hx]))]

theorem digestBytes_lt (H : Hash8) : ∀ b ∈ digestBytes H, b < 256 := by
  intro b hb
  simp only [digestBytes, byte4, List.mem_append, List.mem_cons, List.not_mem_nil, or_false] at hb
  omega

theorem sha256_eq (m : List Nat) :
    sha256 m = digestBytes (sha256Blocks ((padMessage m).length / 64) sha256H0 (padMessage m)) := rfl

theorem sha256_all_lt (m : List Nat) : ∀ b ∈ sha256 m, b < 256 := by
  rw [sha256_eq]
  exact digestBytes_lt _

theorem sha256_ne_nil (m : List Nat) : sha256 m ≠ [] := by
  rw [sha256_eq]
  simp [digestBytes, byte4]

theorem hmacSha256_eq (k m : List Nat) :
    hmacSha256 k m
      = sha256 ((((if 64 < k.length then sha256 k else k)
            ++ List.replicate (64 - (if 64 < k.length then sha256 k else k).length) 0).map (fun b => b ^^^ 92))
          ++ sha256 ((((if 64 < k.length then sha256 k else k)
            ++ List.replicate (64 - (if 64 < k.length then sha256 k else k).length) 0).map (fun b => b ^^^ 54))
          ++ m)) := rfl

theorem pyLower_hexDigest_hmac (k m : List Nat) :
    pyLower (hexDigest (hmacSha256 k m)) = hexDigest (hmacSha256 k m) := by
  rw [hmacSha256_eq]
  show String.mk _ = String.mk _
  simp only [pyLower, hexDigest]
  rw [hexChars_map_toLower _ (sha256_all_lt _)]

theorem hexDigest_ne_empty (l : List Nat) (h : l ≠ []) : hexDigest l ≠ "" := by
  cases l with
  | nil => exact absurd rfl h
  | cons b t =>
    intro hc
    have hd : (hexDigest (b :: t)).data = String.data "" := congrArg String.data hc
    simp [hexDigest, hexChars] at hd

/-- C4: with a configured API key, `_verify_signature` accepts a
signature header exactly when the header, lower-cased, is the
lower-case hex HMAC-SHA256 of the raw body under the key; every other
header value, the empty header included, is rejected. -/
theorem c4_verify_signature (key body : List Nat) (s : String) :
    verifySignature (some key) body s = true ↔ pyLower s = hexDigest (hmacSha256 key body) := by
  by_cases hs : s = ""
  · subst hs
    have hv : verifySignature (some key) body "" = false := by simp [verifySignature]
    rw [hv]
    simp only [Bool.false_eq_true, false_iff]
    intro hc
    exact hexDigest_ne_empty _ (by rw [hmacSha256_eq]; exact sha256_ne_nil _) ((show pyLower "" = "" from rfl) ▸ hc).symm
  · simp only [verifySignature, if_neg hs, beq_iff_eq, pyLower_hexDigest_hmac]
    exact eq_comm

/-! ### Claim C6: the duration and amount normalizer -/

theorem parseMonths_eq_spec (links : List (Nat × String)) (pid : Option Int) :
    parseMonthsFromProduct links pid = monthsSpecOfLinks links pid := by
  induction links with
  | nil => rfl
  | cons ml rest ih =>
    obtain ⟨m, link⟩ := ml
    by_cases h : linkMatches pid link = true
    · simp [parseMonthsFromProduct, monthsSpecOfLinks, List.find?, h]
    · have h' : linkMatches pid link = false := by simpa using h
      simp only [parseMonthsFromProduct, monthsSpecOfLinks, List.find?, h', if_neg] at ih ⊢
      exact ih

/-- C6: the product-based normalizer agrees with the first-matching-link
rule with default 1; amounts are divided by 100 exactly for upper-cased
currency USD or EUR and kept as-is otherwise; and on the spec's worked
example (product 10, amount 500, currency `usd`, a configured 1-month
link containing `p10`) the handler stores months 1 and amount 5. -/
theorem c6_normalizer :
    (∀ links pid, parseMonthsFromProduct links pid = monthsSpecOfLinks links pid) ∧
    (∀ a : ℚ, normalizeAmount a "USD" = a / 100 ∧ normalizeAmount a "EUR" = a / 100) ∧
    (∀ (a : ℚ) c, c ≠ "USD" → c ≠ "EUR" → normalizeAmount a c = a) ∧
    parseMonthsFromProduct exCfg.tribute_links (some 10) = 1 ∧
    handleNewDigitalProduct exCfg okOracles exData exPayload exDb
      = ⟨Except.ok ⟨200, "OK"⟩, ⟨[555], [⟨1, 555, 5, "USD", "succeeded", 1, "tribute",
          "tribute:10:31326:2025-03-20T01:15:58.332Z", some "Tribute subscription 1 month(s)"⟩], [1], [1], 2⟩,
        ⟨[1], 1, [1]⟩⟩ := by
  refine ⟨parseMonths_eq_spec, fun a => ⟨by simp [normalizeAmount], by simp [normalizeAmount]⟩,
    fun a c h1 h2 => by simp [normalizeAmount, h1, h2], by decide, by with_unfolding_all decide⟩

/-- Witness for C6 at a currency outside the minor-unit list. -/
theorem c6_normalizer_witness :
    ("RUB" ≠ "USD" ∧ "RUB" ≠ "EUR") ∧ normalizeAmount 500 "RUB" = 500 :=
  ⟨⟨by decide, by decide⟩, c6_normalizer.2.2.1 500 "RUB" (by decide) (by decide)⟩

/-! ### Claim C7: the period table -/

/-- C7: the period-to-duration mapping of the subscription-event handler
is a fixed table sending `yearly` to 12, `monthly` to 1 and `quarterly`
to 3, and every period name outside the table's keys to the default 1. -/
theorem c7_period_table :
    periodToMonths "yearly" = 12 ∧ periodToMonths "monthly" = 1 ∧ periodToMonths "quarterly" = 3 ∧
    ∀ per, per ∉ ["monthly", "quarterly", "yearly", "half_yearly", "weekly"] → periodToMonths per = 1 := by
  refine ⟨by decide, by decide, by decide, ?_⟩
  intro per hper
  simp only [List.mem_cons, List.mem_singleton, not_or] at hper
  obtain ⟨h1, h2, h3, h4, h5⟩ := hper
  simp [periodToMonths, h1, h2, h3, h4, h5]

/-- Witness for C7 at the unknown period name `daily`. -/
theorem c7_period_table_witness :
    "daily" ∉ ["monthly", "quarterly", "yearly", "half_yearly", "weekly"] ∧ periodToMonths "daily" = 1 :=
  ⟨by decide, c7_period_table.2.2.2 "daily" (by decide)⟩

/-! ### Claim C8: missing telegram_user_id -/

/-- C8: a payload lacking the `telegram_user_id` field makes both
handlers answer 400 with no change to durable state and no collaborator
call. -/
theorem c8_missing_telegram_user_id (cfg : Config) (orc : Oracles) (data : WebhookData)
    (p : Payload) (db : DbState) (h : p.telegram_user_id = none) :
    handleNewDigitalProduct cfg orc data p db
      = ⟨Except.ok ⟨400, "missing_telegram_user_id"⟩, db, emptyTrace⟩ ∧
    handleSubscriptionEvent cfg orc data p db
      = ⟨Except.ok ⟨400, "missing_telegram_user_id"⟩, db, emptyTrace⟩ := by
  constructor
  · simp [handleNewDigitalProduct, h]
  · simp [handleSubscriptionEvent, h]

/-- Witness for C8 at a concrete payload lacking `telegram_user_id`. -/
theorem c8_missing_telegram_user_id_witness :
    emptyPayload.telegram_user_id = none ∧
    handleNewDigitalProduct exCfg okOracles exData emptyPayload exDb
      = ⟨Except.ok ⟨400, "missing_telegram_user_id"⟩, exDb, emptyTrace⟩ :=
  ⟨rfl, (c8_missing_telegram_user_id exCfg okOracles exData emptyPayload exDb rfl).1⟩

/-! ### Claim C9: unknown event names -/

/-- C9: a decoded webhook whose name tag is none of the recognized event
names is answered 200 `OK` by the dispatch portion of the route, with no
persistence write and no collaborator call. -/
theorem c9_unknown_event_noop (cfg : Config) (orc : Oracles) (data : WebhookData) (db : DbState)
    (h : data.name.getD "" ∉ ["new_digital_product", "digitalProductRefund", "newSubscription",
      "renewedSubscription", "new_subscription", "renewed_subscription", "cancelledSubscription",
      "cancelled_subscription"]) :
    routeDecoded cfg orc data db = ⟨Except.ok ⟨200, "OK"⟩, db, emptyTrace⟩ := by
  simp only [List.mem_cons, List.mem_singleton, not_or] at h
  obtain ⟨h1, h2, h3, h4, h5, h6, h7, h8⟩ := h
  simp [routeDecoded, h1, h2, h3, h4, h5, h6, h7, h8]

/-- Witness for C9 at a concrete unrecognized event name. -/
theorem c9_unknown_event_noop_witness :
    ((⟨some "subscriptionPaused", none, some subPayload⟩ : WebhookData).name.getD ""
      ∉ ["new_digital_product", "digitalProductRefund", "newSubscription",
         "renewedSubscription", "new_subscription", "renewed_subscription", "cancelledSubscription",
         "cancelled_subscription"]) ∧
    routeDecoded exCfg okOracles ⟨some "subscriptionPaused", none, some subPayload⟩ subDb
      = ⟨Except.ok ⟨200, "OK"⟩, subDb, emptyTrace⟩ :=
  ⟨by decide, c9_unknown_event_noop exCfg okOracles ⟨some "subscriptionPaused", none, some subPayload⟩ subDb (by decide)⟩

end TributeModel
